import Mathlib

/-!
Verification of the patient-record CRUD service (src/main.py) and the
insurance inference endpoint (src/insurance/app.py).

Modelling conventions:
* Python floats are idealised as exact rationals; Python round(x, 2) is
  round-half-to-even scaled by 100, the documented behaviour of the builtin.
* The JSON file patients.json is a Collection: an association list from
  patient id to stored record body, preserving insertion order exactly as
  a Python dict (json.load / json.dump keep key order).
* pydantic v2 model_dump includes @computed_field properties, so the dumped
  body carries bmi and verdict entries; model_dump(exclude=["id"]) drops
  only the id field.  The /sort handler reads x[sort_by] with sort_by="bmi"
  straight off the stored dict, which only works because bmi is stored.
* Each route handler is a function from the loaded collection (and request
  data) to an Except value; an error means an exception was raised before
  save_data ran, so the file is unchanged (fileAfter).
* FastAPI runs a handler only on schema-valid input, so handler theorems
  carry the corresponding validity hypotheses.
-/

namespace PatientAPI

inductive Gender
  | male
  | female
  | other
deriving DecidableEq, Repr

def Gender.toStr : Gender → String
  | .male => "male"
  | .female => "female"
  | .other => "other"

/-- Round-half-to-even to an integer, the behaviour of the Python builtin
round on exact values. -/
def roundHalfEven (q : ℚ) : ℤ :=
  if Int.fract q = 1 / 2 then 2 * round (q / 2) else round q

/-- Python round(x, 2). -/
def round2 (q : ℚ) : ℚ := (roundHalfEven (100 * q) : ℚ) / 100

/-- src/main.py, Patient.bmi: round(weight / ((height / 100) ** 2), 2). -/
def bmiCalc (height weight : ℚ) : ℚ := round2 (weight / ((height / 100) ^ 2))

/-- src/main.py, Patient.verdict: the if/elif/elif/else chain on bmi. -/
def verdictOf (bmi : ℚ) : String :=
  if bmi < 18.5 then "Underweight"
  else if 18.5 ≤ bmi ∧ bmi < 24.9 then "Normal weight"
  else if 25 ≤ bmi ∧ bmi < 29.9 then "Overweight"
  else "Obesity"

/-- The Patient schema fields (src/main.py lines 9-16). -/
structure Patient where
  id : String
  name : String
  city : String
  age : ℤ
  gender : Gender
  height : ℚ
  weight : ℚ
deriving DecidableEq, Repr

def Patient.bmi (p : Patient) : ℚ := bmiCalc p.height p.weight

def Patient.verdict (p : Patient) : String := verdictOf p.bmi

/-- pydantic validation of Patient: age has gt=0 and lt=120, height and
weight have gt=0; id, name, city are bare str fields with no length
constraint, and gender is typed by the Literal enum. -/
def Patient.valid (p : Patient) : Bool :=
  decide (0 < p.age) && decide (p.age < 120)
    && decide (0 < p.height) && decide (0 < p.weight)

/-- The PatientUpdate schema (src/main.py lines 39-45): every field
optional; a present value must satisfy the per-field bound (age gt=0 with
no upper bound, height gt=0, weight gt=0). -/
structure PatientUpdate where
  name : Option String := none
  city : Option String := none
  age : Option ℤ := none
  gender : Option Gender := none
  height : Option ℚ := none
  weight : Option ℚ := none
deriving DecidableEq, Repr

def PatientUpdate.valid (u : PatientUpdate) : Bool :=
  (u.age.all fun a => decide (0 < a))
    && (u.height.all fun h => decide (0 < h))
    && (u.weight.all fun w => decide (0 < w))

/-- The record body stored in patients.json under a patient id: the dump of
a Patient without its id.  pydantic model_dump includes the computed fields
bmi and verdict. -/
structure StoredBody where
  name : String
  city : String
  age : ℤ
  gender : Gender
  height : ℚ
  weight : ℚ
  bmi : ℚ
  verdict : String
deriving DecidableEq, Repr

/-- A JSON scalar appearing as a field value in a stored record. -/
inductive FieldVal
  | vStr (s : String)
  | vInt (n : ℤ)
  | vRat (q : ℚ)
deriving DecidableEq, Repr

/-- patient.model_dump(exclude=["id"]): regular fields in declaration
order, then the computed fields, id removed. -/
def Patient.dumpNoId (p : Patient) : StoredBody :=
  { name := p.name, city := p.city, age := p.age, gender := p.gender,
    height := p.height, weight := p.weight, bmi := p.bmi, verdict := p.verdict }

/-- The JSON object serialised for one stored record body. -/
def StoredBody.dict (b : StoredBody) : List (String × FieldVal) :=
  [("name", .vStr b.name), ("city", .vStr b.city), ("age", .vInt b.age),
   ("gender", .vStr b.gender.toStr), ("height", .vRat b.height),
   ("weight", .vRat b.weight), ("bmi", .vRat b.bmi),
   ("verdict", .vStr b.verdict)]

/-- The whole patients.json file: id-keyed collection, insertion ordered. -/
def Collection := List (String × StoredBody)

instance : DecidableEq Collection := by
  unfold Collection
  infer_instance

/-- patient_id in data. -/
def hasId (data : Collection) (pid : String) : Bool :=
  data.any fun kv => kv.1 == pid

/-- data[patient_id] as a read. -/
def lookupId (data : Collection) (pid : String) : Option StoredBody :=
  (data.find? fun kv => kv.1 == pid).map Prod.snd

/-- data[patient_id] = b as a write: replace in place when the key exists,
append at the end otherwise, exactly as Python dict assignment orders keys. -/
def dictSet : Collection → String → StoredBody → Collection
  | [], pid, b => [(pid, b)]
  | kv :: rest, pid, b =>
      if kv.1 = pid then (pid, b) :: rest else kv :: dictSet rest pid b

/-- An HTTPException(status, detail) or a pydantic ValidationError escaping
the handler. -/
inductive ApiError
  | http (status : ℕ) (detail : String)
  | validation
deriving DecidableEq, Repr

/-- A JSONResponse carrying status, message and patient_id. -/
structure MsgResponse where
  status : ℕ
  message : String
  patient_id : String
deriving DecidableEq, Repr

/-- GET /view. -/
def view (data : Collection) : Collection := data

/-- GET /view/{patient_id}. -/
def view_patient (data : Collection) (pid : String) : Except ApiError StoredBody :=
  match lookupId data pid with
  | some b => .ok b
  | none => .error (.http 404 "Patient not found")

def valid_fields : List String := ["height", "weight", "bmi"]

/-- x[sort_by] on a stored record, for sort_by in valid_fields. -/
def sortKey (sb : String) (b : StoredBody) : ℚ :=
  if sb = "height" then b.height else if sb = "weight" then b.weight else b.bmi

/-- The comparison Python sorted uses: key ascending, or key descending
when reverse=True; stable in both directions. -/
def sortRel (sb ord : String) (a b : StoredBody) : Prop :=
  if ord = "desc" then sortKey sb b ≤ sortKey sb a else sortKey sb a ≤ sortKey sb b

instance instDecSortRel (sb ord : String) : DecidableRel (sortRel sb ord) := by
  intro a b
  unfold sortRel
  infer_instance

/-- GET /sort: validate sort_by and order, then stable-sort the collection
values by the chosen key. -/
def sort_patients (data : Collection) (sort_by ord : String) :
    Except ApiError (List StoredBody) :=
  if sort_by ∉ valid_fields then
    .error (.http 400 "Invalid field select from [height, weight, bmi]")
  else if ord ≠ "asc" ∧ ord ≠ "desc" then
    .error (.http 400 "Order must be asc or desc")
  else
    .ok (List.insertionSort (sortRel sort_by ord) (data.map Prod.snd))

/-- POST /create: conflict on an existing id, otherwise store
patient.model_dump(exclude=["id"]) under patient.id and return 201. -/
def create_patient (data : Collection) (p : Patient) :
    Except ApiError (Collection × MsgResponse) :=
  if hasId data p.id then .error (.http 400 "Patient ID already exists")
  else .ok (dictSet data p.id p.dumpNoId,
            ⟨201, "Patient created successfully", p.id⟩)

/-- The merged record rebuilt in update_patient: provided update fields
overwrite the stored base fields, id forced back to the path id, and the
result passed through the full Patient constructor (the stored bmi and
verdict entries are extra keys pydantic ignores). -/
def mergePatient (pid : String) (b : StoredBody) (u : PatientUpdate) : Patient :=
  { id := pid,
    name := u.name.getD b.name, city := u.city.getD b.city,
    age := u.age.getD b.age, gender := u.gender.getD b.gender,
    height := u.height.getD b.height, weight := u.weight.getD b.weight }

/-- PUT /update/{patient_id}: 404 when absent, else merge, re-validate the
merged whole as a Patient (a ValidationError aborts before save_data), dump
without id and persist. -/
def update_patient (data : Collection) (pid : String) (u : PatientUpdate) :
    Except ApiError (Collection × MsgResponse) :=
  match lookupId data pid with
  | none => .error (.http 404 "Patient not found")
  | some b =>
      if (mergePatient pid b u).valid then
        .ok (dictSet data pid (mergePatient pid b u).dumpNoId,
             ⟨200, "Patient updated successfully", pid⟩)
      else .error .validation

/-- The file contents after a handler ran: save_data is only reached on the
success path, so an error leaves the file as loaded. -/
def fileAfter (data : Collection) (r : Except ApiError (Collection × MsgResponse)) :
    Collection :=
  match r with
  | .ok (d, _) => d
  | .error _ => data

/-- Modelled from the spec words, for comparison with bmiCalc: BMI is the
weight in kg divided by the square of the height converted from cm to m,
rounded to two decimal places. -/
def bmiSpec (height weight : ℚ) : ℚ :=
  round2 (weight / ((height / 100) * (height / 100)))

end PatientAPI

namespace Insurance

/-- The validated request body of POST /predict (src/insurance/app.py).
Modelled from the spec: the UserInput schema lives in schema/user_input.py,
which is not under src/; the spec lists its fields as BMI, age group,
lifestyle-risk category, city tier, income, occupation. -/
structure UserInput where
  bmi : ℚ
  age_group : String
  lifestyle_risk : String
  city_tier : ℤ
  income_lpa : ℚ
  occupation : String
deriving DecidableEq, Repr

/-- The feature dict the handler assembles before calling the model. -/
structure Features where
  bmi : ℚ
  age_group : String
  lifestyle_risk : String
  city_tier : ℤ
  income_lpa : ℚ
  occupation : String
deriving DecidableEq, Repr

/-- The user_input dict built field by field inside predict. -/
def featuresOf (d : UserInput) : Features :=
  { bmi := d.bmi, age_group := d.age_group, lifestyle_risk := d.lifestyle_risk,
    city_tier := d.city_tier, income_lpa := d.income_lpa,
    occupation := d.occupation }

/-- Modelled from the spec: predict_output from model/predict.py is not
under src/; it is an opaque classifier that either returns a label or
raises an exception carrying a message. -/
def Classifier := Features → Except String String

/-- The JSON body of the /predict response. -/
inductive PredictBody
  | response (label : String)
  | error (msg : String)
deriving DecidableEq, Repr

/-- POST /predict: build the feature dict, call the classifier inside
try/except, return 200 with the label or 500 with str(e). -/
def predict (c : Classifier) (d : UserInput) : ℕ × PredictBody :=
  match c (featuresOf d) with
  | .ok prediction => (200, .response prediction)
  | .error e => (500, .error e)

end Insurance

open PatientAPI Insurance

/-- A concrete valid patient: bmi 20, verdict Normal weight. -/
def pA : Patient := ⟨"P1", "Alice", "Pune", 30, .male, 100, 20⟩

/-- A concrete patient whose id and name are both the empty string. -/
def pEmpty : Patient := ⟨"", "", "Pune", 30, .male, 100, 20⟩

/-- A partial update supplying only age 150: accepted by the PatientUpdate
schema (gt=0 is its only age bound), rejected by the full Patient schema. -/
def uAge150 : PatientUpdate := { age := some 150 }

/-- A partial update supplying only a new weight of 25 kg. -/
def uW25 : PatientUpdate := { weight := some 25 }

/-- A stored body with a given bmi entry, for exercising /sort. -/
def mkBody (q : ℚ) : StoredBody := ⟨"n", "c", 30, .male, 100, q, q, "v"⟩

/-- A collection whose stored bmi values are 18, 30, 22 in insertion order. -/
def cSort : Collection := [("A", mkBody 18), ("B", mkBody 30), ("C", mkBody 22)]

/-- A classifier that always returns the label High. -/
def cHigh : Classifier := fun _ => .ok "High"

/-- A classifier that always raises an exception with message boom. -/
def cBoom : Classifier := fun _ => .error "boom"

/-- A concrete insurance input. -/
def dIns : UserInput := ⟨22, "adult", "low", 1, 10, "engineer"⟩

/-- C2: the claim says a BMI in [24.9, 25) is assigned none of the four
buckets and is left unclassified; at height 100 cm and weight 24.9 kg the
BMI is exactly 24.9 and the verdict is "Obesity", one of the four buckets. -/
theorem C2_counterexample :
    (0:ℚ) < 100 ∧ (0:ℚ) < 24.9 ∧
    24.9 ≤ bmiCalc 100 24.9 ∧ bmiCalc 100 24.9 < 25 ∧
    verdictOf (bmiCalc 100 24.9) = "Obesity" ∧
    "Obesity" ∈ ["Underweight", "Normal weight", "Overweight", "Obesity"] := by
  have hb : bmiCalc 100 24.9 = 249/10 := by
    unfold bmiCalc round2 roundHalfEven
    norm_num [Int.fract, round_eq]
  refine ⟨by norm_num, by norm_num, by rw [hb]; norm_num, by rw [hb]; norm_num,
    ?_, by decide⟩
  rw [hb]
  norm_num [verdictOf]

/-- C2 amended: for every height > 0 and weight > 0 whose computed BMI lies
in [24.9, 25), the verdict computation fails the Underweight, Normal weight
and Overweight conditions and falls into the else branch, classifying the
value as "Obesity" rather than leaving it unclassified. -/
theorem C2_theorem (h w : ℚ) (hh : 0 < h) (hw : 0 < w)
    (hlo : 24.9 ≤ bmiCalc h w) (hhi : bmiCalc h w < 25) :
    verdictOf (bmiCalc h w) = "Obesity" := by
  unfold verdictOf
  have h1 : ¬ (bmiCalc h w < 18.5) := by push_neg; linarith
  have h2 : ¬ (18.5 ≤ bmiCalc h w ∧ bmiCalc h w < 24.9) := by
    rintro ⟨-, hb⟩; linarith
  have h3 : ¬ ((25:ℚ) ≤ bmiCalc h w ∧ bmiCalc h w < 29.9) := by
    rintro ⟨hb, -⟩; linarith
  rw [if_neg h1, if_neg h2, if_neg h3]

/-- Witness for C2_theorem at height 100, weight 24.9. -/
theorem C2_witness :
    ((0:ℚ) < 100 ∧ (0:ℚ) < 24.9 ∧
      24.9 ≤ bmiCalc 100 24.9 ∧ bmiCalc 100 24.9 < 25) ∧
    verdictOf (bmiCalc 100 24.9) = "Obesity" := by
  have hb : bmiCalc 100 24.9 = 249/10 := by
    unfold bmiCalc round2 roundHalfEven
    norm_num [Int.fract, round_eq]
  exact ⟨⟨by norm_num, by norm_num, by rw [hb]; norm_num, by rw [hb]; norm_num⟩,
    C2_theorem 100 24.9 (by norm_num) (by norm_num) (by rw [hb]; norm_num)
      (by rw [hb]; norm_num)⟩

/-- C6: for all height > 0 and weight > 0, the computed BMI equals the spec
formula round(weight / (height/100)², 2): weight in kg divided by the
square of the height converted from cm to m, rounded to two decimals. -/
theorem C6_theorem (h w : ℚ) (hh : 0 < h) (hw : 0 < w) :
    bmiCalc h w = bmiSpec h w := by
  unfold bmiCalc bmiSpec
  congr 1
  ring

/-- Witness for C6_theorem at height 100, weight 20. -/
theorem C6_witness :
    ((0:ℚ) < 100 ∧ (0:ℚ) < 20) ∧ bmiCalc 100 20 = bmiSpec 100 20 :=
  ⟨by norm_num, C6_theorem 100 20 (by norm_num) (by norm_num)⟩

/-- Writing a body under a key and reading that key back yields the body. -/
theorem lookupId_dictSet (data : Collection) (k : String) (b : StoredBody) :
    lookupId (dictSet data k b) k = some b := by
  induction data with
  | nil => simp [dictSet, lookupId, List.find?]
  | cons kv rest ih =>
      unfold dictSet
      by_cases h : kv.1 = k
      · simp [h, lookupId, List.find?]
      · rw [if_neg h]
        unfold lookupId
        rw [List.find?_cons_of_neg]
        · exact ih
        · simp [h]

/-- C1: the claim says the persisted record body contains only the base
fields and no bmi or verdict entry; creating a concrete patient stores a
body whose JSON object does carry bmi and verdict keys (pydantic
model_dump includes computed fields). -/
theorem C1_counterexample :
    create_patient [] pA =
      .ok ([("P1", pA.dumpNoId)], ⟨201, "Patient created successfully", "P1"⟩) ∧
    "bmi" ∈ pA.dumpNoId.dict.map Prod.fst ∧
    "verdict" ∈ pA.dumpNoId.dict.map Prod.fst := by
  refine ⟨rfl, by decide, by decide⟩

/-- C1 amended: for every successful POST /create and PUT /update, the body
written under the operation's identifier holds the six base fields plus bmi
and verdict entries, where the stored bmi and verdict are the values
computed from the stored height and weight at write time; a subsequent read
returns that stored body. -/
theorem C1_theorem (data : Collection) (p : Patient) (pid : String)
    (u : PatientUpdate) :
    (∀ d r, create_patient data p = .ok (d, r) →
      ∃ b, lookupId d p.id = some b ∧
        b.dict.map Prod.fst =
          ["name", "city", "age", "gender", "height", "weight", "bmi", "verdict"] ∧
        b.bmi = bmiCalc b.height b.weight ∧ b.verdict = verdictOf b.bmi ∧
        view_patient d p.id = .ok b) ∧
    (∀ d r, update_patient data pid u = .ok (d, r) →
      ∃ b, lookupId d pid = some b ∧
        b.dict.map Prod.fst =
          ["name", "city", "age", "gender", "height", "weight", "bmi", "verdict"] ∧
        b.bmi = bmiCalc b.height b.weight ∧ b.verdict = verdictOf b.bmi ∧
        view_patient d pid = .ok b) := by
  constructor
  · intro d r hok
    unfold create_patient at hok
    split at hok
    · exact absurd hok (by simp)
    · simp only [Except.ok.injEq, Prod.mk.injEq] at hok
      obtain ⟨hd, -⟩ := hok
      subst hd
      refine ⟨p.dumpNoId, lookupId_dictSet data p.id p.dumpNoId, rfl, rfl, rfl, ?_⟩
      unfold view_patient
      rw [lookupId_dictSet]
  · intro d r hok
    unfold update_patient at hok
    split at hok
    · exact absurd hok (by simp)
    · rename_i b0 heq
      split at hok
      · simp only [Except.ok.injEq, Prod.mk.injEq] at hok
        obtain ⟨hd, -⟩ := hok
        subst hd
        refine ⟨(mergePatient pid b0 u).dumpNoId, lookupId_dictSet _ _ _,
          rfl, rfl, rfl, ?_⟩
        unfold view_patient
        rw [lookupId_dictSet]
      · exact absurd hok (by simp)

/-- Witness for C1_theorem: create pA into the empty collection. -/
theorem C1_witness :
    ∃ b, lookupId (dictSet [] "P1" pA.dumpNoId) "P1" = some b ∧
      b.dict.map Prod.fst =
        ["name", "city", "age", "gender", "height", "weight", "bmi", "verdict"] ∧
      b.bmi = bmiCalc b.height b.weight ∧ b.verdict = verdictOf b.bmi ∧
      view_patient (dictSet [] "P1" pA.dumpNoId) "P1" = .ok b :=
  (C1_theorem [] pA "P1" {}).1 (dictSet [] "P1" pA.dumpNoId)
    ⟨201, "Patient created successfully", "P1"⟩ rfl

/-- Reducing update_patient once the looked-up body is known. -/
theorem update_patient_some (data : Collection) (pid : String)
    (u : PatientUpdate) (b : StoredBody) (hb : lookupId data pid = some b) :
    update_patient data pid u =
      if (mergePatient pid b u).valid then
        .ok (dictSet data pid (mergePatient pid b u).dumpNoId,
             ⟨200, "Patient updated successfully", pid⟩)
      else .error .validation := by
  unfold update_patient
  rw [hb]

/-- C3: the claim says an empty id or name fails validation before any
store operation; the concrete patient with empty id and empty name passes
validation and is persisted under the empty-string key. -/
theorem C3_counterexample :
    pEmpty.id = "" ∧ pEmpty.name = "" ∧ pEmpty.valid = true ∧
    create_patient [] pEmpty =
      .ok ([("", pEmpty.dumpNoId)], ⟨201, "Patient created successfully", ""⟩) := by
  refine ⟨rfl, rfl, ?_, rfl⟩
  norm_num [pEmpty, Patient.valid]

/-- C3 amended: schema validation constrains only the numeric fields (age
in the open interval (0,120), height and weight positive) and the gender
enum; identifier and name are bare string fields, so any strings, the empty
string included, pass validation and the record is persisted. -/
theorem C3_theorem (data : Collection) (p : Patient)
    (h1 : 0 < p.age) (h2 : p.age < 120) (h3 : 0 < p.height) (h4 : 0 < p.weight)
    (h5 : hasId data p.id = false) :
    p.valid = true ∧
    create_patient data p =
      .ok (dictSet data p.id p.dumpNoId,
           ⟨201, "Patient created successfully", p.id⟩) := by
  have hv : p.valid = true := by
    unfold Patient.valid
    simp [h1, h2, h3, h4]
  refine ⟨hv, ?_⟩
  unfold create_patient
  simp [h5]

/-- Witness for C3_theorem at the empty-id empty-name patient. -/
theorem C3_witness :
    (0 < pEmpty.age ∧ pEmpty.age < 120 ∧ 0 < pEmpty.height ∧ 0 < pEmpty.weight ∧
      hasId [] pEmpty.id = false) ∧
    pEmpty.valid = true ∧
    create_patient [] pEmpty =
      .ok (dictSet [] pEmpty.id pEmpty.dumpNoId,
           ⟨201, "Patient created successfully", pEmpty.id⟩) :=
  ⟨⟨by norm_num [pEmpty], by norm_num [pEmpty], by norm_num [pEmpty],
     by norm_num [pEmpty], rfl⟩,
   C3_theorem [] pEmpty (by norm_num [pEmpty]) (by norm_num [pEmpty])
     (by norm_num [pEmpty]) (by norm_num [pEmpty]) rfl⟩

/-- C4: update merges the provided fields onto the stored record and
re-validates the merged whole as a full Patient before persisting; a merged
record violating a base constraint makes the update fail with the file
unchanged, and any successful update stored exactly the dump of the
validated merged record. -/
theorem C4_theorem (data : Collection) (pid : String) (u : PatientUpdate)
    (b : StoredBody) (hu : u.valid = true) (hb : lookupId data pid = some b) :
    ((mergePatient pid b u).valid = false →
      update_patient data pid u = .error .validation ∧
      fileAfter data (update_patient data pid u) = data) ∧
    (∀ d r, update_patient data pid u = .ok (d, r) →
      (mergePatient pid b u).valid = true ∧
      d = dictSet data pid (mergePatient pid b u).dumpNoId) := by
  constructor
  · intro hinv
    have h1 : update_patient data pid u = .error .validation := by
      rw [update_patient_some data pid u b hb, if_neg]
      simp [hinv]
    exact ⟨h1, by unfold fileAfter; rw [h1]⟩
  · intro d r hok
    rw [update_patient_some data pid u b hb] at hok
    by_cases hval : (mergePatient pid b u).valid = true
    · rw [if_pos hval] at hok
      simp only [Except.ok.injEq, Prod.mk.injEq] at hok
      exact ⟨hval, hok.1.symm⟩
    · rw [if_neg hval] at hok
      exact absurd hok (by simp)

/-- Witness for C4_theorem: updating age to 150 on an existing record is
accepted by the PatientUpdate schema, rejected by the merged re-validation,
and leaves the file unchanged. -/
theorem C4_witness :
    (uAge150.valid = true ∧
      lookupId [("P1", pA.dumpNoId)] "P1" = some pA.dumpNoId ∧
      (mergePatient "P1" pA.dumpNoId uAge150).valid = false) ∧
    (update_patient [("P1", pA.dumpNoId)] "P1" uAge150 = .error .validation ∧
      fileAfter [("P1", pA.dumpNoId)]
        (update_patient [("P1", pA.dumpNoId)] "P1" uAge150) =
        [("P1", pA.dumpNoId)]) :=
  ⟨⟨by decide, rfl, by decide⟩,
   (C4_theorem [("P1", pA.dumpNoId)] "P1" uAge150 pA.dumpNoId (by decide) rfl).1
     (by decide)⟩

/-- C5: on an existing record, an update supplying only weight succeeds,
leaves name, city, age, gender and height unchanged in the stored record,
sets the new weight, and the bmi and verdict obtained on a subsequent read
are the values computed from the new weight and the old height. -/
theorem C5_theorem (data : Collection) (pid : String) (b : StoredBody) (w : ℚ)
    (hb : lookupId data pid = some b) (h1 : 0 < b.age) (h2 : b.age < 120)
    (h3 : 0 < b.height) (h4 : 0 < w) :
    update_patient data pid { weight := some w } =
      .ok (dictSet data pid
            ⟨b.name, b.city, b.age, b.gender, b.height, w,
              bmiCalc b.height w, verdictOf (bmiCalc b.height w)⟩,
           ⟨200, "Patient updated successfully", pid⟩) ∧
    view_patient
        (dictSet data pid
          ⟨b.name, b.city, b.age, b.gender, b.height, w,
            bmiCalc b.height w, verdictOf (bmiCalc b.height w)⟩) pid =
      .ok ⟨b.name, b.city, b.age, b.gender, b.height, w,
            bmiCalc b.height w, verdictOf (bmiCalc b.height w)⟩ := by
  have hv : (mergePatient pid b { weight := some w }).valid = true := by
    unfold mergePatient Patient.valid
    simp [h1, h2, h3, h4]
  constructor
  · rw [update_patient_some data pid _ b hb, if_pos hv]
    rfl
  · unfold view_patient
    rw [lookupId_dictSet]

/-- Witness for C5_theorem: set weight 25 on the stored record of pA. -/
theorem C5_witness :
    (lookupId [("P1", pA.dumpNoId)] "P1" = some pA.dumpNoId ∧
      0 < pA.dumpNoId.age ∧ pA.dumpNoId.age < 120 ∧
      0 < pA.dumpNoId.height ∧ (0:ℚ) < 25) ∧
    update_patient [("P1", pA.dumpNoId)] "P1" { weight := some 25 } =
      .ok (dictSet [("P1", pA.dumpNoId)] "P1"
            ⟨pA.dumpNoId.name, pA.dumpNoId.city, pA.dumpNoId.age,
              pA.dumpNoId.gender, pA.dumpNoId.height, 25,
              bmiCalc pA.dumpNoId.height 25,
              verdictOf (bmiCalc pA.dumpNoId.height 25)⟩,
           ⟨200, "Patient updated successfully", "P1"⟩) ∧
    view_patient
        (dictSet [("P1", pA.dumpNoId)] "P1"
          ⟨pA.dumpNoId.name, pA.dumpNoId.city, pA.dumpNoId.age,
            pA.dumpNoId.gender, pA.dumpNoId.height, 25,
            bmiCalc pA.dumpNoId.height 25,
            verdictOf (bmiCalc pA.dumpNoId.height 25)⟩) "P1" =
      .ok ⟨pA.dumpNoId.name, pA.dumpNoId.city, pA.dumpNoId.age,
            pA.dumpNoId.gender, pA.dumpNoId.height, 25,
            bmiCalc pA.dumpNoId.height 25,
            verdictOf (bmiCalc pA.dumpNoId.height 25)⟩ :=
  ⟨⟨rfl, by decide, by decide, by decide, by norm_num⟩,
   C5_theorem [("P1", pA.dumpNoId)] "P1" pA.dumpNoId 25 rfl
     (by decide) (by decide) (by decide) (by norm_num)⟩

/-- C7: creating with an identifier already present fails with status 400
and leaves the whole stored collection unmodified; creating with a fresh
identifier inserts the dumped body under it and returns 201 with the
identifier. -/
theorem C7_theorem (data : Collection) (p : Patient) (hv : p.valid = true) :
    (hasId data p.id = true →
      create_patient data p = .error (.http 400 "Patient ID already exists") ∧
      fileAfter data (create_patient data p) = data) ∧
    (hasId data p.id = false →
      create_patient data p =
        .ok (dictSet data p.id p.dumpNoId,
             ⟨201, "Patient created successfully", p.id⟩)) := by
  constructor
  · intro h
    have hc : create_patient data p =
        .error (.http 400 "Patient ID already exists") := by
      unfold create_patient
      simp [h]
    exact ⟨hc, by unfold fileAfter; rw [hc]⟩
  · intro h
    unfold create_patient
    simp [h]

/-- Witness for C7_theorem: duplicate create of pA against a collection
already holding its id. -/
theorem C7_witness :
    (pA.valid = true ∧ hasId [("P1", pA.dumpNoId)] pA.id = true) ∧
    (create_patient [("P1", pA.dumpNoId)] pA =
        .error (.http 400 "Patient ID already exists") ∧
      fileAfter [("P1", pA.dumpNoId)] (create_patient [("P1", pA.dumpNoId)] pA) =
        [("P1", pA.dumpNoId)]) :=
  ⟨⟨by decide, rfl⟩,
   (C7_theorem [("P1", pA.dumpNoId)] pA (by decide)).1 rfl⟩

/-- C9: after every successful create or update, the body stored under the
identifier of the operation carries no id key in its JSON object; the
identifier lives only as the collection key. -/
theorem C9_theorem (data : Collection) (p : Patient) (pid : String)
    (u : PatientUpdate) :
    (∀ d r, create_patient data p = .ok (d, r) →
      ∃ b, lookupId d p.id = some b ∧ "id" ∉ b.dict.map Prod.fst) ∧
    (∀ d r, update_patient data pid u = .ok (d, r) →
      ∃ b, lookupId d pid = some b ∧ "id" ∉ b.dict.map Prod.fst) := by
  constructor
  · intro d r hok
    unfold create_patient at hok
    split at hok
    · exact absurd hok (by simp)
    · simp only [Except.ok.injEq, Prod.mk.injEq] at hok
      obtain ⟨hd, -⟩ := hok
      subst hd
      refine ⟨p.dumpNoId, lookupId_dictSet data p.id p.dumpNoId, ?_⟩
      simp [StoredBody.dict]
  · intro d r hok
    unfold update_patient at hok
    split at hok
    · exact absurd hok (by simp)
    · rename_i b0 heq
      split at hok
      · simp only [Except.ok.injEq, Prod.mk.injEq] at hok
        obtain ⟨hd, -⟩ := hok
        subst hd
        refine ⟨(mergePatient pid b0 u).dumpNoId, lookupId_dictSet _ _ _, ?_⟩
        simp [StoredBody.dict]
      · exact absurd hok (by simp)

/-- Witness for C9_theorem: the body created for pA has no id key. -/
theorem C9_witness :
    ∃ b, lookupId (dictSet [] "P1" pA.dumpNoId) "P1" = some b ∧
      "id" ∉ b.dict.map Prod.fst :=
  (C9_theorem [] pA "P1" {}).1 (dictSet [] "P1" pA.dumpNoId)
    ⟨201, "Patient created successfully", "P1"⟩ rfl

/-- Filtering by key value commutes with a single ordered insertion, given
that insertion only skips past strictly smaller-keyed elements. -/
theorem filter_orderedInsert {α β : Type} [DecidableEq β]
    (le : α → α → Prop) [DecidableRel le] (f : α → β) (x : α)
    (hne : ∀ y, ¬ le x y → f x ≠ f y) (q : β) :
    ∀ l : List α,
      (List.orderedInsert le x l).filter (fun a => decide (f a = q)) =
        if f x = q then x :: l.filter (fun a => decide (f a = q))
        else l.filter (fun a => decide (f a = q))
  | [] => by
      by_cases hq : f x = q <;> simp [List.orderedInsert, hq]
  | y :: ys => by
      unfold List.orderedInsert
      by_cases hle : le x y
      · rw [if_pos hle, List.filter_cons]
        by_cases hq : f x = q <;> simp [hq]
      · rw [if_neg hle, List.filter_cons, List.filter_cons,
          filter_orderedInsert le f x hne q ys]
        have hxy : f x ≠ f y := hne y hle
        by_cases hq : f x = q
        · have hy : ¬ (f y = q) := fun hc => hxy (hq.trans hc.symm)
          simp [hq, hy]
        · by_cases hy : f y = q <;> simp [hq, hy]

/-- Insertion sort is stable: elements sharing any key value keep their
relative order, stated as filter invariance. -/
theorem filter_insertionSort {α β : Type} [DecidableEq β]
    (le : α → α → Prop) [DecidableRel le] (f : α → β)
    (hne : ∀ x y, ¬ le x y → f x ≠ f y) (q : β) :
    ∀ l : List α,
      (List.insertionSort le l).filter (fun a => decide (f a = q)) =
        l.filter (fun a => decide (f a = q))
  | [] => rfl
  | x :: xs => by
      show (List.orderedInsert le x (List.insertionSort le xs)).filter _ = _
      rw [filter_orderedInsert le f x (hne x) q,
        filter_insertionSort le f hne q xs, List.filter_cons]
      by_cases hq : f x = q <;> simp [hq]

theorem sortRel_total (sb ord : String) (a b : StoredBody) :
    sortRel sb ord a b ∨ sortRel sb ord b a := by
  unfold sortRel
  by_cases h : ord = "desc"
  · rw [if_pos h, if_pos h]
    exact le_total _ _
  · rw [if_neg h, if_neg h]
    exact le_total _ _

theorem sortRel_trans (sb ord : String) (a b c : StoredBody)
    (h1 : sortRel sb ord a b) (h2 : sortRel sb ord b c) : sortRel sb ord a c := by
  unfold sortRel at h1 h2 ⊢
  by_cases h : ord = "desc"
  · rw [if_pos h] at h1 h2 ⊢
    exact le_trans h2 h1
  · rw [if_neg h] at h1 h2 ⊢
    exact le_trans h1 h2

theorem sortRel_ne (sb ord : String) (x y : StoredBody)
    (hno : ¬ sortRel sb ord x y) : sortKey sb x ≠ sortKey sb y := by
  unfold sortRel at hno
  by_cases h : ord = "desc"
  · rw [if_pos h] at hno
    exact ne_of_lt (not_le.mp hno)
  · rw [if_neg h] at hno
    exact ne_of_gt (not_le.mp hno)

/-- C8: for a valid sort_by and order, /sort returns the collection values,
ordered by the chosen key ascending or descending respectively, and the
sort is stable: records with equal key values keep their original insertion
order (filter invariance for every key value). -/
theorem C8_theorem (data : Collection) (sb ord : String)
    (hsb : sb ∈ valid_fields) (hord : ord = "asc" ∨ ord = "desc") :
    ∃ out, sort_patients data sb ord = .ok out ∧
      out.Perm (data.map Prod.snd) ∧
      (ord = "asc" → out.Sorted (fun a b => sortKey sb a ≤ sortKey sb b)) ∧
      (ord = "desc" → out.Sorted (fun a b => sortKey sb b ≤ sortKey sb a)) ∧
      ∀ q : ℚ, out.filter (fun b => decide (sortKey sb b = q)) =
        (data.map Prod.snd).filter (fun b => decide (sortKey sb b = q)) := by
  refine ⟨List.insertionSort (sortRel sb ord) (data.map Prod.snd),
    ?_, ?_, ?_, ?_, ?_⟩
  · unfold sort_patients
    rw [if_neg (by simp [hsb]), if_neg (by rcases hord with h | h <;> simp [h])]
  · exact List.perm_insertionSort _ _
  · intro ha
    have hrel : sortRel sb ord = fun a b => sortKey sb a ≤ sortKey sb b := by
      funext a b
      unfold sortRel
      rw [if_neg (by rw [ha]; decide)]
    haveI : IsTotal StoredBody (sortRel sb ord) := ⟨sortRel_total sb ord⟩
    haveI : IsTrans StoredBody (sortRel sb ord) := ⟨sortRel_trans sb ord⟩
    rw [← hrel]
    exact List.sorted_insertionSort _ _
  · intro hd
    have hrel : sortRel sb ord = fun a b => sortKey sb b ≤ sortKey sb a := by
      funext a b
      unfold sortRel
      rw [if_pos hd]
    haveI : IsTotal StoredBody (sortRel sb ord) := ⟨sortRel_total sb ord⟩
    haveI : IsTrans StoredBody (sortRel sb ord) := ⟨sortRel_trans sb ord⟩
    rw [← hrel]
    exact List.sorted_insertionSort _ _
  · intro q
    exact filter_insertionSort (sortRel sb ord) (sortKey sb)
      (sortRel_ne sb ord) q (data.map Prod.snd)

/-- Witness for C8_theorem: sorting the collection with stored bmi values
18, 30, 22 by bmi descending. -/
theorem C8_witness :
    ("bmi" ∈ valid_fields ∧ ("desc" = "asc" ∨ "desc" = "desc")) ∧
    ∃ out, sort_patients cSort "bmi" "desc" = .ok out ∧
      out.Perm (cSort.map Prod.snd) ∧
      ("desc" = "asc" →
        out.Sorted (fun a b => sortKey "bmi" a ≤ sortKey "bmi" b)) ∧
      ("desc" = "desc" →
        out.Sorted (fun a b => sortKey "bmi" b ≤ sortKey "bmi" a)) ∧
      ∀ q : ℚ, out.filter (fun b => decide (sortKey "bmi" b = q)) =
        (cSort.map Prod.snd).filter (fun b => decide (sortKey "bmi" b = q)) :=
  ⟨⟨by decide, Or.inr rfl⟩, C8_theorem cSort "bmi" "desc" (by decide) (Or.inr rfl)⟩

/-- C10: for every validated InsuranceInput, /predict returns status 200
with a response body holding the label when the classifier succeeds, and
when the classifier raises, the exception is caught and returned as status
500 with the message passed through as a string, with no retry. -/
theorem C10_theorem (c : Classifier) (d : UserInput) :
    (∀ lbl, c (featuresOf d) = .ok lbl →
      predict c d = (200, .response lbl)) ∧
    (∀ msg, c (featuresOf d) = .error msg →
      predict c d = (500, .error msg)) := by
  constructor
  · intro lbl hl
    unfold predict
    rw [hl]
  · intro msg hm
    unfold predict
    rw [hm]

/-- Witness for C10_theorem: a succeeding and a failing classifier on a
concrete input. -/
theorem C10_witness :
    (cHigh (featuresOf dIns) = .ok "High" ∧
      predict cHigh dIns = (200, .response "High")) ∧
    (cBoom (featuresOf dIns) = .error "boom" ∧
      predict cBoom dIns = (500, .error "boom")) :=
  ⟨⟨rfl, (C10_theorem cHigh dIns).1 "High" rfl⟩,
   ⟨rfl, (C10_theorem cBoom dIns).2 "boom" rfl⟩⟩
